import Mathlib

/-!
Shallow embedding of the HID report protocol layer of the ds4-gui repository
(src/dual_shock_4.rs and src/dual_shock_4/hid_report.rs), together with
theorems settling the frozen claims about it.

Conventions of the embedding:
* Machine bytes and words are `Nat`s reduced with explicit `% 256` / `% 65536`
  where the Rust types (`u8`, `u16`) wrap; signed 16-bit values are `Int`s in
  `[-32768, 32767]` obtained via `i16ofBits`.
* Fallible Rust code returning `Result` becomes `Except DsError`; code paths
  that panic in Rust (`todo!()`, out-of-bounds slicing) are modelled by the
  `RunResult.panicked` outcome.
* The HID transport is modelled by the sequence of responses it would yield:
  a `List` of buffers (an exhausted list stands for a transport failure).
-/

namespace DS4

/-- Reduction of a `Nat` to the value of the Rust `u8` holding it. -/
def u8 (n : Nat) : Nat := n % 256

/-- The signed 16-bit value whose bit pattern is `z` modulo 2^16
(Rust `i16::from_le_bytes` / wrapping reinterpretation). -/
def i16ofBits (z : Int) : Int := (z + 32768) % 65536 - 32768

/-- Rust `i16::overflowing_add` (wrapping signed 16-bit addition). -/
def i16wrapAdd (a b : Int) : Int := i16ofBits (a + b)

/-- Rust `i16::not` (bitwise complement of a signed 16-bit value). -/
def i16not (a : Int) : Int := -a - 1

/-- Rust `as u16` cast of a signed 16-bit value: its unsigned bit pattern. -/
def u16ofI16 (a : Int) : Nat := (a % 65536).toNat

/-- The error enum of `dual_shock_4.rs` (`Error`); the `HidError` payload and
the formatted message strings are abstracted to tags. -/
inductive DsError where
  | hid : DsError
  | outOfRange : DsError
  | invalidReport : DsError
  | message : String → DsError
  deriving DecidableEq, Repr

/-- The report identifier catalog of `hid_report.rs` (`ReportId`). -/
inductive ReportId where
  | inputReport | outputDevice | getMotionCalibData | setMotionCalibData
  | setFactoryCommand | getCalibFlag | getIeepData | getParingInfo
  | setParingInfo | setUsbBtControl | setBdAdr | getBdAdr | setFactoryData
  | setAdrToGetFactoryData | getFactoryData | setPcbaId | getPcbaId
  | getTrackRecord | setCalibrationCommand | getCalibrationState
  | getCalibrationResult | getCalibrationData | setTestCommand | setBtEnable
  | setDfuEnable | getFirmInfo | getTestData
  deriving DecidableEq, Repr

/-- The `u8` discriminant of each `ReportId` (`id as u8`). -/
def ReportId.toByte : ReportId → Nat
  | .inputReport => 0x1
  | .outputDevice => 0x5
  | .getMotionCalibData => 0x2
  | .setMotionCalibData => 0x4
  | .setFactoryCommand => 0x8
  | .getCalibFlag => 0x10
  | .getIeepData => 0x11
  | .getParingInfo => 0x12
  | .setParingInfo => 0x13
  | .setUsbBtControl => 0x14
  | .setBdAdr => 0x80
  | .getBdAdr => 0x81
  | .setFactoryData => 0x82
  | .setAdrToGetFactoryData => 0x83
  | .getFactoryData => 0x84
  | .setPcbaId => 0x85
  | .getPcbaId => 0x86
  | .getTrackRecord => 0x87
  | .setCalibrationCommand => 0x90
  | .getCalibrationState => 0x91
  | .getCalibrationResult => 0x92
  | .getCalibrationData => 0x93
  | .setTestCommand => 0xa0
  | .setBtEnable => 0xa1
  | .setDfuEnable => 0xa2
  | .getFirmInfo => 0xa3
  | .getTestData => 0xa4

/-- A wire frame (`hid_report.rs`, `Report`): the requested identifier plus
the raw buffer `data` whose byte 0 is the leading identifier byte. -/
structure Report where
  id : ReportId
  data : List Nat
  deriving DecidableEq, Repr

/-- `Report::new(id, payload_size)`: a zero-filled payload behind the
identifier byte. -/
def Report.new (id : ReportId) (payloadSize : Nat) : Report :=
  { id := id, data := id.toByte :: List.replicate payloadSize 0 }

/-- `Report::from_payload(id, payload)`: the payload copied behind the
identifier byte. -/
def Report.fromPayload (id : ReportId) (payload : List Nat) : Report :=
  { id := id, data := id.toByte :: payload }

/-- `Report::payload`: the buffer without the identifier byte. -/
def Report.payload (r : Report) : List Nat := r.data.drop 1

/-- `Report::valid`: the leading byte of the buffer equals the requested
identifier's byte. -/
def Report.valid (r : Report) : Bool := r.data.getD 0 0 == r.id.toByte

/-- `DualShock4::get_report(id, payload_size)`: build a request, let the
transport overwrite its buffer with `response`, and accept it only when its
leading byte matches the requested identifier (else `Error::InvalidReport`).
The transport (`get_feature_report`) is modelled by the `response` buffer it
writes into the frame. -/
def getReport (id : ReportId) (_payloadSize : Nat) (response : List Nat) :
    Except DsError Report :=
  let report : Report := { id := id, data := response }
  if report.valid then Except.ok report else Except.error DsError.invalidReport

/-- The 64-byte input snapshot (`Data`); the buffer is a byte list. -/
structure Data where
  buf : List Nat
  deriving DecidableEq, Repr

/-- `Data::zeroed()`. -/
def Data.zeroed : Data := { buf := List.replicate 64 0 }

/-- Byte `i` of the snapshot buffer. -/
def Data.byte (d : Data) (i : Nat) : Nat := u8 (d.buf.getD i 0)

/-- `Data::counter()`: the rolling counter, `buf[7] >> 2`. -/
def Data.counter (d : Data) : Nat := d.byte 7 / 4

/-- The D-pad states (`DPadState`). -/
inductive DPadState where
  | upLeft | left | downLeft | down | downRight | right | upRight | up
  | released
  deriving DecidableEq, Repr

/-- `Data::d_pad()`: match on `buf[5] << 4` (a `u8` shift, so the face-button
high nibble is shifted out and only the low nibble remains, scaled by 16). -/
def Data.dPad (d : Data) : DPadState :=
  let s := d.byte 5 * 16 % 256
  if s = 0b01110000 then DPadState.upLeft
  else if s = 0b01100000 then DPadState.left
  else if s = 0b01010000 then DPadState.downLeft
  else if s = 0b01000000 then DPadState.down
  else if s = 0b00110000 then DPadState.downRight
  else if s = 0b00100000 then DPadState.right
  else if s = 0b00010000 then DPadState.upRight
  else if s = 0b00000000 then DPadState.up
  else DPadState.released

/-- The body of the bounded drain loop of `DualShock4::read_last_data`:
`fuel` counts the remaining `for _ in 0..16` iterations, `lastFilled` and
`lastRead` are the two working buffers, and `reads` are the responses the
transport will yield to the remaining `hid_device.read` calls (an exhausted
list is a transport failure).  Leaving the loop returns `Some(last_filled)`
when its byte 0 is nonzero and `None` otherwise. -/
def readLastDataGo : Nat → Data → Data → List Data → Except DsError (Option Data)
  | 0, lastFilled, _, _ =>
      Except.ok (if lastFilled.byte 0 ≠ 0 then some lastFilled else none)
  | Nat.succ fuel, lastFilled, lastRead, reads =>
      if lastRead.byte 0 = 0 ∨ (lastFilled.byte 0 ≠ 0 ∧ lastRead.counter = lastFilled.counter) then
        Except.ok (if lastFilled.byte 0 ≠ 0 then some lastFilled else none)
      else
        match reads with
        | [] => Except.error DsError.hid
        | r :: rest => readLastDataGo fuel lastRead r rest

/-- `DualShock4::read_last_data`: one initial read, then the 16-iteration
drain loop, over the sequence `reads` of buffers the transport yields. -/
def readLastData (reads : List Data) : Except DsError (Option Data) :=
  match reads with
  | [] => Except.error DsError.hid
  | r :: rest => readLastDataGo 16 Data.zeroed r rest

/-- `AnalogStickCalibrationType`. -/
inductive AnalogStickCalibrationType where
  | center | minMax | none
  deriving DecidableEq, Repr

/-- `TryFrom<u8> for AnalogStickCalibrationType`. -/
def AnalogStickCalibrationType.tryFromByte (b : Nat) :
    Except String AnalogStickCalibrationType :=
  if b = 0x01 then Except.ok AnalogStickCalibrationType.center
  else if b = 0x02 then Except.ok AnalogStickCalibrationType.minMax
  else if b = 0xff then Except.ok AnalogStickCalibrationType.none
  else Except.error "Invalid analog stick calibration type"

/-- `From<AnalogStickCalibrationType> for u8`. -/
def AnalogStickCalibrationType.toByte : AnalogStickCalibrationType → Nat
  | .center => 0x01
  | .minMax => 0x02
  | .none => 0xff

/-- `TriggerKeyLeftRight`. -/
inductive TriggerKeyLeftRight where
  | unknown | left | right | both
  deriving DecidableEq, Repr

/-- `TryFrom<u8> for TriggerKeyLeftRight`. -/
def TriggerKeyLeftRight.tryFromByte (b : Nat) :
    Except String TriggerKeyLeftRight :=
  if b = 0x00 then Except.ok TriggerKeyLeftRight.unknown
  else if b = 0x01 then Except.ok TriggerKeyLeftRight.left
  else if b = 0x02 then Except.ok TriggerKeyLeftRight.right
  else if b = 0x03 then Except.ok TriggerKeyLeftRight.both
  else Except.error "Invalid trigger key"

/-- `From<TriggerKeyLeftRight> for u8`. -/
def TriggerKeyLeftRight.toByte : TriggerKeyLeftRight → Nat
  | .unknown => 0x00
  | .left => 0x01
  | .right => 0x02
  | .both => 0x03

/-- `TriggerKeyCalibrationType`. -/
inductive TriggerKeyCalibrationType where
  | recordMaxSample : TriggerKeyLeftRight → TriggerKeyCalibrationType
  | recordRangeSample : TriggerKeyLeftRight → TriggerKeyCalibrationType
  | recordMinSample : TriggerKeyLeftRight → TriggerKeyCalibrationType
  | unknown : TriggerKeyLeftRight → TriggerKeyCalibrationType
  | none : TriggerKeyCalibrationType
  deriving DecidableEq, Repr

/-- `TryFrom<[u8; 2]> for TriggerKeyCalibrationType`. -/
def TriggerKeyCalibrationType.tryFromBytes (b0 b1 : Nat) :
    Except String TriggerKeyCalibrationType :=
  if b0 = 0x01 then
    (TriggerKeyLeftRight.tryFromByte b1).map TriggerKeyCalibrationType.recordMaxSample
  else if b0 = 0x02 then
    (TriggerKeyLeftRight.tryFromByte b1).map TriggerKeyCalibrationType.recordRangeSample
  else if b0 = 0x03 then
    (TriggerKeyLeftRight.tryFromByte b1).map TriggerKeyCalibrationType.recordMinSample
  else if b0 = 0x00 then
    (TriggerKeyLeftRight.tryFromByte b1).map TriggerKeyCalibrationType.unknown
  else if b0 = 0xff then Except.ok TriggerKeyCalibrationType.none
  else Except.error "Invalid trigger key calibration type"

/-- `From<TriggerKeyCalibrationType> for [u8; 2]`, as a byte pair. -/
def TriggerKeyCalibrationType.toBytes : TriggerKeyCalibrationType → Nat × Nat
  | .recordMaxSample lr => (0x01, lr.toByte)
  | .recordRangeSample lr => (0x02, lr.toByte)
  | .recordMinSample lr => (0x03, lr.toByte)
  | .unknown lr => (0x00, lr.toByte)
  | .none => (0xff, 0x00)

/-- `CalibrationDeviceType`. -/
inductive CalibrationDeviceType where
  | analogStick : AnalogStickCalibrationType → CalibrationDeviceType
  | motionSensor : CalibrationDeviceType
  | triggerKey : TriggerKeyCalibrationType → CalibrationDeviceType
  | none : CalibrationDeviceType
  deriving DecidableEq, Repr

/-- The 4-byte body of `TryFrom<[u8; 4]> for CalibrationDeviceType`: the
match arms `[0x01, t, 0, 0]`, `[0x02, 0, 0, 0]`, `[0x03, t, lr, 0]`,
`[0xff, _, _, _]` in source order; everything else is a parse error. -/
def CalibrationDeviceType.tryFromBytes4 (b0 b1 b2 b3 : Nat) :
    Except String CalibrationDeviceType :=
  if b0 = 0x01 ∧ b2 = 0x00 ∧ b3 = 0x00 then
    (AnalogStickCalibrationType.tryFromByte b1).map CalibrationDeviceType.analogStick
  else if b0 = 0x02 ∧ b1 = 0x00 ∧ b2 = 0x00 ∧ b3 = 0x00 then
    Except.ok CalibrationDeviceType.motionSensor
  else if b0 = 0x03 ∧ b3 = 0x00 then
    (TriggerKeyCalibrationType.tryFromBytes b1 b2).map CalibrationDeviceType.triggerKey
  else if b0 = 0xff then Except.ok CalibrationDeviceType.none
  else Except.error "Invalid calibration device type"

/-- `TryFrom<[u8; 4]> for CalibrationDeviceType`, over a 4-byte list. -/
def CalibrationDeviceType.tryFromBytes : List Nat → Except String CalibrationDeviceType
  | [b0, b1, b2, b3] => CalibrationDeviceType.tryFromBytes4 b0 b1 b2 b3
  | _ => Except.error "Invalid calibration device type"

/-- `From<CalibrationDeviceType> for [u8; 4]`. -/
def CalibrationDeviceType.toBytes : CalibrationDeviceType → List Nat
  | .analogStick t => [0x01, t.toByte, 0x00, 0x00]
  | .motionSensor => [0x02, 0x00, 0x00, 0x00]
  | .triggerKey t => [0x03, t.toBytes.1, t.toBytes.2, 0x00]
  | .none => [0xff, 0xff, 0x00, 0x00]

/-- `StickCenterCalibration`: an 8-byte raw buffer. -/
structure StickCenterCalibration where
  buf : List Nat
  deriving DecidableEq, Repr

/-- `StickCenterCalibration::default()`. -/
def StickCenterCalibration.default : StickCenterCalibration :=
  { buf := List.replicate 8 0 }

/-- `STICK_CALIBRATION_RANGE = 0xfff`. -/
def STICK_CALIBRATION_RANGE : Nat := 0xfff

/-- `STICK_CALIBRATION_HALF_RANGE = STICK_CALIBRATION_RANGE / 2` (integer
division, hence `0x7ff = 2047`). -/
def STICK_CALIBRATION_HALF_RANGE : Nat := STICK_CALIBRATION_RANGE / 2

/-- `StickCenterCalibration::get_value_at_index`: read the little-endian
16-bit word at byte offset `index * 2`, reinterpret as `i16`, subtract the
half range (an `i16` subtraction, modelled wrapping). -/
def StickCenterCalibration.getValueAtIndex (c : StickCenterCalibration)
    (index : Nat) : Int :=
  let i := index * 2
  let raw := i16ofBits (u8 (c.buf.getD i 0) + 256 * u8 (c.buf.getD (i + 1) 0))
  i16ofBits (raw - STICK_CALIBRATION_HALF_RANGE)

/-- `StickCenterCalibration::set_value_at_index`: add the half range (an
`i16` addition, modelled wrapping), cast to `u16` (wrapping), clamp to
`[0, STICK_CALIBRATION_RANGE]`, and store little-endian. -/
def StickCenterCalibration.setValueAtIndex (c : StickCenterCalibration)
    (index : Nat) (value : Int) : StickCenterCalibration :=
  let i := index * 2
  let raw := i16ofBits (value + STICK_CALIBRATION_HALF_RANGE)
  let clamped := min (u16ofI16 raw) STICK_CALIBRATION_RANGE
  { buf := (c.buf.set i (clamped % 256)).set (i + 1) (clamped / 256) }

/-- `StickMinMaxCalibration`: a 16-byte raw buffer. -/
structure StickMinMaxCalibration where
  buf : List Nat
  deriving DecidableEq, Repr

/-- `TriggersCalibration`: a variable-length raw buffer. -/
structure TriggersCalibration where
  buf : List Nat
  deriving DecidableEq, Repr

/-- `CalibrationData`. -/
inductive CalibrationData where
  | stickCenter : StickCenterCalibration → List StickCenterCalibration → CalibrationData
  | stickMinMax : StickMinMaxCalibration → CalibrationData
  | triggers : TriggersCalibration → CalibrationData
  deriving DecidableEq, Repr

/-- Outcome of running a fallible operation whose Rust body can also panic
(`todo!()`, out-of-bounds slicing, `copy_from_slice` length mismatch). -/
inductive RunResult (α : Type) where
  | ok : α → RunResult α
  | err : DsError → RunResult α
  | panicked : RunResult α
  deriving DecidableEq, Repr

/-- One 13-byte `GetCalibrationData` response payload, by field:
`deviceTag0 = payload[0]`, `deviceTag1 = payload[1]`, `chunks = payload[2]`,
`currentChunk = payload[3]`, `dataLen = payload[4]`, and `dataBytes` the
8 trailing bytes `payload[5..13]`. -/
structure Chunk where
  deviceTag0 : Nat
  deviceTag1 : Nat
  chunks : Nat
  currentChunk : Nat
  dataLen : Nat
  dataBytes : List Nat
  deriving DecidableEq, Repr

/-- The accumulation loop of `DualShock4::read_calibration_data`: process the
chunk responses in arrival order, appending `payload[5..5+data_len]` to
`data`, until a `None` device type or an out-of-range chunk index breaks the
loop (returning the accumulated bytes and the last device type).  The bound
`chunks - 1` is the Rust `u8` subtraction, which wraps, so it is modelled as
`u8 (chunks + 255)`; a device-type mismatch between chunks or a chunk length
over 8 aborts with an error.  An exhausted response list models a transport
failure on the next `get_report`. -/
def readCalibrationDataGo :
    List Chunk → List Nat → CalibrationDeviceType →
    RunResult (List Nat × CalibrationDeviceType)
  | [], _, _ => RunResult.err DsError.hid
  | c :: rest, data, lastDevice =>
      match CalibrationDeviceType.tryFromBytes [c.deviceTag0, c.deviceTag1, 0, 0] with
      | Except.error e => RunResult.err (DsError.message e)
      | Except.ok device =>
          if device = CalibrationDeviceType.none ∨ c.currentChunk > u8 (c.chunks + 255) then
            RunResult.ok (data, lastDevice)
          else if lastDevice ≠ CalibrationDeviceType.none ∧ lastDevice ≠ device then
            RunResult.err (DsError.message "Mismatch Device Type")
          else if c.dataLen > 8 then
            RunResult.err (DsError.message "Invalid Calibration Data chunk len")
          else
            readCalibrationDataGo rest (data ++ c.dataBytes.take c.dataLen) device

/-- The per-sample loop of the `StickCenter` arm: for `i` in
`0..samples_count`, copy `data[(8*i + 9)..(8*i + 17)]` into a fresh sample
(panicking when the slice is out of bounds, as Rust slicing does). -/
def collectStickCenterSamples (data : List Nat) :
    Nat → Nat → RunResult (List StickCenterCalibration)
  | _, 0 => RunResult.ok []
  | i, Nat.succ remaining =>
      if data.length < 8 * i + 9 + 8 then RunResult.panicked
      else
        match collectStickCenterSamples data (i + 1) remaining with
        | RunResult.ok rest =>
            RunResult.ok (⟨(data.drop (8 * i + 9)).take 8⟩ :: rest)
        | RunResult.err e => RunResult.err e
        | RunResult.panicked => RunResult.panicked

/-- The decode step of `DualShock4::read_calibration_data` after the loop:
reinterpret the accumulated bytes per the final device type.  The wildcard
arm of the source `match` is `todo!()`, i.e. a panic. -/
def decodeCalibrationData (data : List Nat) :
    CalibrationDeviceType → RunResult CalibrationData
  | CalibrationDeviceType.analogStick AnalogStickCalibrationType.center =>
      if data.length < 8 then RunResult.panicked
      else
        let calculated : StickCenterCalibration := ⟨data.take 8⟩
        match data.get? 8 with
        | Option.none => RunResult.ok (CalibrationData.stickCenter calculated [])
        | some samplesCount =>
            match collectStickCenterSamples data 0 samplesCount with
            | RunResult.ok samples =>
                RunResult.ok (CalibrationData.stickCenter calculated samples)
            | RunResult.err e => RunResult.err e
            | RunResult.panicked => RunResult.panicked
  | CalibrationDeviceType.analogStick AnalogStickCalibrationType.minMax =>
      if data.length < 16 then RunResult.panicked
      else RunResult.ok (CalibrationData.stickMinMax ⟨data.take 16⟩)
  | CalibrationDeviceType.triggerKey _ =>
      RunResult.ok (CalibrationData.triggers ⟨data⟩)
  | _ => RunResult.panicked

/-- `DualShock4::read_calibration_data` over the sequence of chunk responses
the transport yields: run the accumulation loop, then decode. -/
def readCalibrationData (reads : List Chunk) : RunResult CalibrationData :=
  match readCalibrationDataGo reads [] CalibrationDeviceType.none with
  | RunResult.ok (data, lastDevice) => decodeCalibrationData data lastDevice
  | RunResult.err e => RunResult.err e
  | RunResult.panicked => RunResult.panicked

/-- `FLASH_MIRROR_SIZE = 0x800`. -/
def FLASH_MIRROR_SIZE : Nat := 0x800

/-- `FlashMirror`: the 2048-byte non-volatile memory mirror, modelled as a
byte map (index `0 ≤ i < 2048` holds byte `buf i`). -/
structure FlashMirror where
  buf : Nat → Nat

/-- The little-endian 16-bit word pattern at word offset `k` of a mirror. -/
def FlashMirror.wordPat (m : FlashMirror) (k : Nat) : Nat :=
  u8 (m.buf (2 * k)) + 256 * u8 (m.buf (2 * k + 1))

/-- `FlashMirror::calc_crc`: starting from `0i16`, add (wrapping, signed
16-bit) the little-endian words at word offsets `1..FLASH_MIRROR_SIZE/2`,
then bitwise-complement and cast to `u16`. -/
def FlashMirror.calcCrc (m : FlashMirror) : Nat :=
  u16ofI16 (i16not ((List.range' 1 (FLASH_MIRROR_SIZE / 2 - 1)).foldl
    (fun crc k => i16wrapAdd crc (i16ofBits (m.wordPat k))) 0))

/-- `FlashMirror::crc`: the little-endian 16-bit value stored at bytes 0-1. -/
def FlashMirror.crc (m : FlashMirror) : Nat :=
  u8 (m.buf 0) + 256 * u8 (m.buf 1)

/-- `FlashMirror::check_crc`. -/
def FlashMirror.checkCrc (m : FlashMirror) : Bool := m.calcCrc == m.crc

/-- `FlashMirror::update_crc`: store `calc_crc` little-endian at bytes 0-1. -/
def FlashMirror.updateCrc (m : FlashMirror) : FlashMirror :=
  { buf := Function.update (Function.update m.buf 0 (m.calcCrc % 256)) 1 (m.calcCrc / 256) }

/-- The checksum in the spec's words: the bitwise complement, reinterpreted
as unsigned 16-bit, of the sum of all little-endian 16-bit words from word
offset 1 through the last word (word 0 excluded): `0xffff` minus the plain
word sum reduced modulo `2^16`. -/
def FlashMirror.crcSpec (m : FlashMirror) : Nat :=
  0xffff - ((List.range' 1 (FLASH_MIRROR_SIZE / 2 - 1)).foldl
    (fun s k => s + m.wordPat k) 0) % 65536

/-- `FactoryCommand`, restricted to the encodable commands used here. -/
inductive FactoryCommand where
  | setIeepAddress : Nat → FactoryCommand
  deriving DecidableEq, Repr

/-- `From<FactoryCommand> for [u8; 3]` for `SetIeepAddress(offset)`: the
fixed factory opcode `0xff` followed by the `u16` offset big-endian. -/
def FactoryCommand.toBytes : FactoryCommand → List Nat
  | .setIeepAddress offset => [0xff, offset % 65536 / 256, offset % 256]

/-- The word address a `SetIeepAddress` factory command frame selects on the
device: the big-endian 16-bit argument behind the `0xff` opcode.  Modelled
from the spec: the device itself is not part of the repository; §4.4 and
§6 describe the transport as a word-addressed memory selected by this
command and read back two bytes at a time. -/
def ieepAddrOfCommand (cmd : List Nat) : Nat :=
  cmd.getD 1 0 * 256 + cmd.getD 2 0

/-- `DualShock4::read_flash_mirror` against a device memory `mem` mapping a
byte address to the two IEEP bytes returned for it: for each word offset
`0..1024` in increasing order, send `SetIeepAddress(offset * 2)` and append
the two bytes `get_ieep_data` then yields.  Returns the trace of factory
command frames sent and the assembled 2048-byte buffer. -/
def readFlashMirrorStep (mem : Nat → Nat × Nat)
    (acc : List (List Nat) × List Nat) (offset : Nat) :
    List (List Nat) × List Nat :=
  let cmd := (FactoryCommand.setIeepAddress (offset * 2)).toBytes
  let twoBytes := mem (ieepAddrOfCommand cmd)
  (acc.1 ++ [cmd], acc.2 ++ [twoBytes.1, twoBytes.2])

/-- The loop of `DualShock4::read_flash_mirror`: fold the per-offset
exchange over the word offsets `0..FLASH_MIRROR_SIZE/2` in order. -/
def readFlashMirror (mem : Nat → Nat × Nat) : List (List Nat) × List Nat :=
  (List.range (FLASH_MIRROR_SIZE / 2)).foldl (readFlashMirrorStep mem) ([], [])

/-! Concrete inputs used by the claims below. -/

/-- Input report `A` of the synthetic latest-input sequence: a non-all-zero
buffer (report identifier 1 at byte 0) with rolling counter 1
(byte 7 = `1 << 2`). -/
def dataA : Data := ⟨((List.replicate 64 0).set 0 1).set 7 4⟩

/-- Input report `B` of the synthetic latest-input sequence: a non-all-zero
buffer with rolling counter 2 (byte 7 = `2 << 2`). -/
def dataB : Data := ⟨((List.replicate 64 0).set 0 1).set 7 8⟩

/-- A calibration-data chunk whose device-type tag decodes to
`MotionSensor` (one chunk of zero data bytes). -/
def motionSensorChunk : Chunk := ⟨0x02, 0x00, 1, 0, 0, [0, 0, 0, 0, 0, 0, 0, 0]⟩

/-- The terminating chunk response: a `None` device-type tag (`0xff` bytes),
which ends the reassembly loop. -/
def noneChunk : Chunk := ⟨0xff, 0xff, 1, 0, 0, [0, 0, 0, 0, 0, 0, 0, 0]⟩

/-- A chunk whose total-chunk-count byte is 0 while its current-chunk index
is 5, carrying two data bytes under a TriggerKey device-type tag. -/
def zeroCountChunk : Chunk := ⟨0x03, 0x01, 0, 5, 2, [0xAA, 0xBB, 0, 0, 0, 0, 0, 0]⟩

/-- StickCenter chunk 0 of the synthetic 3-chunk sequence (tag
`[0x01, 0x01]`, 3 chunks, index 0, 8 data bytes). -/
def stickCenterChunk0 : Chunk := ⟨0x01, 0x01, 3, 0, 8, [10, 11, 12, 13, 14, 15, 16, 17]⟩

/-- StickCenter chunk 1 (index 1); its first data byte (accumulated byte 8)
is the sample count 1. -/
def stickCenterChunk1 : Chunk := ⟨0x01, 0x01, 3, 1, 8, [1, 21, 22, 23, 24, 25, 26, 27]⟩

/-- StickCenter chunk 2 (index 2). -/
def stickCenterChunk2 : Chunk := ⟨0x01, 0x01, 3, 2, 8, [28, 99, 99, 99, 99, 99, 99, 99]⟩

/-- A variant of chunk 2 whose device-type tag (`[0x01, 0x02]`, StickMinMax)
differs from that of chunks 0 and 1. -/
def stickCenterChunk2Mismatch : Chunk := ⟨0x01, 0x02, 3, 2, 8, [28, 99, 99, 99, 99, 99, 99, 99]⟩

/-! Theorems settling the claims. -/

/-- C1, counterexample: on the read sequence
`[all-zero, A(counter 1), A(counter 1), B(counter 2), all-zero]` the drain
does not return `Some(A)` — the leading all-zero read breaks the loop on its
first iteration before anything was kept, so `read_last_data` returns
`Ok(None)`. -/
theorem c1_counterexample :
    readLastData [Data.zeroed, dataA, dataA, dataB, Data.zeroed] =
      Except.ok Option.none ∧
    ∀ d : Data,
      (Except.ok (some d) : Except DsError (Option Data)) ≠ Except.ok Option.none := by
  refine ⟨rfl, fun d h => ?_⟩
  exact Option.noConfusion (Except.ok.inj h)

/-- C1, amended: the drain keeps the most recently read non-all-zero report
and stops when a newly read report's counter equals the last kept report's
counter, when the new read is all-zero, or after 16 iterations; since the
very first read of the sequence `[zero, A, A, B, zero]` is all-zero, the
drain stops at once and returns `None` for that sequence, while on
`[A(counter 1), A(counter 1), B(counter 2), zero]` it returns `Some(A)`:
the repeated counter at the second `A` halts the drain before `B` is ever
consumed, and neither a stale nor an all-zero report is returned. -/
theorem c1_amended :
    readLastData [dataA, dataA, dataB, Data.zeroed] = Except.ok (some dataA) ∧
    readLastData [Data.zeroed, dataA, dataA, dataB, Data.zeroed] =
      Except.ok Option.none :=
  ⟨rfl, rfl⟩

/-- C2: when the accumulated calibration payload's final device type is
`MotionSensor`, the wildcard arm of `read_calibration_data` is `todo!()`,
so the call panics instead of preserving the bytes as an undecoded raw
sequence — the code contradicts the spec's "must not crash the caller". -/
theorem c2_motion_sensor_panics :
    readCalibrationData [motionSensorChunk, noneChunk] = RunResult.panicked :=
  rfl

/-- C4, counterexample: a chunk whose total-chunk-count byte is 0 does not
stop the loop — the `u8` bound `chunks - 1` wraps to 255, every index is in
range, and the chunk's two data bytes are accumulated (the loop only stops
at the following `None` chunk). -/
theorem c4_counterexample :
    readCalibrationDataGo [zeroCountChunk, noneChunk] [] CalibrationDeviceType.none =
      RunResult.ok ([0xAA, 0xBB],
        CalibrationDeviceType.triggerKey
          (TriggerKeyCalibrationType.recordMaxSample TriggerKeyLeftRight.unknown)) ∧
    ([0xAA, 0xBB] : List Nat) ≠ [] := by
  exact ⟨rfl, by simp⟩

/-- C4, amended: the reassembly loop stops, without error and without
panicking, as soon as a chunk's device type decodes to `None` or its
current-chunk index exceeds the wrapping `u8` computation `chunks - 1`;
for a chunk whose total-chunk-count byte is 0 that bound wraps to 255, so
no index is out of range and the loop continues to accumulate (under
release-profile wrapping arithmetic; a debug build would panic on the
subtraction overflow instead). -/
theorem c4_amended (c : Chunk) (rest : List Chunk) (data : List Nat)
    (lastDevice d : CalibrationDeviceType)
    (hdec : CalibrationDeviceType.tryFromBytes [c.deviceTag0, c.deviceTag1, 0, 0] =
      Except.ok d)
    (hstop : d = CalibrationDeviceType.none ∨ c.currentChunk > u8 (c.chunks + 255)) :
    readCalibrationDataGo (c :: rest) data lastDevice = RunResult.ok (data, lastDevice) := by
  unfold readCalibrationDataGo
  rw [hdec]
  exact if_pos hstop

/-- C4, witness: the amended stop condition applied to the concrete `None`
chunk. -/
theorem c4_amended_witness :
    readCalibrationDataGo [noneChunk] [] CalibrationDeviceType.none =
      RunResult.ok ([], CalibrationDeviceType.none) :=
  c4_amended noneChunk [] [] CalibrationDeviceType.none CalibrationDeviceType.none
    rfl (Or.inl rfl)

/-- C5: on the synthetic 3-chunk StickCenter sequence with indices 0, 1, 2
and matching tags (followed by the device's terminating `None` response),
`read_calibration_data` concatenates the chunks' data bytes in index order
and yields `CalibrationData::StickCenter` with the first 8 bytes as the
calculated calibration and one 8-byte sample (the count byte is accumulated
byte 8); when chunk 2's tag differs from that of chunks 0 and 1 it fails
with the device-type-mismatch error instead. -/
theorem c5_stick_center_reassembly :
    readCalibrationData [stickCenterChunk0, stickCenterChunk1, stickCenterChunk2, noneChunk] =
      RunResult.ok (CalibrationData.stickCenter ⟨[10, 11, 12, 13, 14, 15, 16, 17]⟩
        [⟨[21, 22, 23, 24, 25, 26, 27, 28]⟩]) ∧
    readCalibrationData
        [stickCenterChunk0, stickCenterChunk1, stickCenterChunk2Mismatch, noneChunk] =
      RunResult.err (DsError.message "Mismatch Device Type") :=
  ⟨rfl, rfl⟩

/-- C3, counterexample: the half-range offset is `0xfff / 2 = 2047`, not
2048, and the round-trip fails at `v = -2048`: the raw word `-1` wraps to
`0xffff` under the `u16` cast, is clamped to `4095`, and reads back as
`4095 - 2047 = 2048`. -/
theorem c3_counterexample :
    (StickCenterCalibration.default.setValueAtIndex 0 (-2048)).getValueAtIndex 0 = 2048 ∧
    (2048 : Int) ≠ -2048 := by
  exact ⟨rfl, by decide⟩

/-- C3, amended: the setter adds the half-range offset 2047 (half of the
12-bit range `0xfff`, rounded down) and clamps the raw word to `[0, 4095]`;
for every signed value `v` in `[-2047, 2047]` and every field index,
`get(set(v)) = v`. -/
theorem c3_roundtrip (b0 b1 b2 b3 b4 b5 b6 b7 : Nat) (index : Nat) (v : Int)
    (hidx : index < 4) (hlo : -2047 ≤ v) (hhi : v ≤ 2047) :
    (StickCenterCalibration.setValueAtIndex ⟨[b0, b1, b2, b3, b4, b5, b6, b7]⟩ index v).getValueAtIndex
      index = v := by
  interval_cases index <;>
    (simp [StickCenterCalibration.setValueAtIndex, StickCenterCalibration.getValueAtIndex,
      STICK_CALIBRATION_HALF_RANGE, STICK_CALIBRATION_RANGE, u8, u16ofI16, i16ofBits]
     omega)

/-- C3, witness: the amended round-trip at a concrete buffer, index 3 and
value 1000. -/
theorem c3_roundtrip_witness :
    (StickCenterCalibration.setValueAtIndex ⟨[0, 0, 0, 0, 0, 0, 0, 0]⟩ 3 1000).getValueAtIndex 3 =
      1000 :=
  c3_roundtrip 0 0 0 0 0 0 0 0 3 1000 (by decide) (by decide) (by decide)

/-- The crc fold only looks at words whose offset the buffer change leaves
untouched, so `calc_crc` is invariant under it. -/
theorem calcCrc_congr (m m' : FlashMirror)
    (h : ∀ k, 1 ≤ k → m'.wordPat k = m.wordPat k) : m'.calcCrc = m.calcCrc := by
  unfold FlashMirror.calcCrc
  have hfold :
      (List.range' 1 (FLASH_MIRROR_SIZE / 2 - 1)).foldl
          (fun crc k => i16wrapAdd crc (i16ofBits (m'.wordPat k))) 0 =
        (List.range' 1 (FLASH_MIRROR_SIZE / 2 - 1)).foldl
          (fun crc k => i16wrapAdd crc (i16ofBits (m.wordPat k))) 0 := by
    apply List.foldl_ext
    intro a k hk
    rcases List.mem_range'.mp hk with ⟨i, _, rfl⟩
    rw [h (1 + 1 * i) (by omega)]
  rw [hfold]

/-- `calc_crc` never reads bytes 0 and 1 (the checksum slot). -/
theorem calcCrc_update01 (m : FlashMirror) (b0 b1 : Nat) :
    (FlashMirror.mk (Function.update (Function.update m.buf 0 b0) 1 b1)).calcCrc =
      m.calcCrc := by
  apply calcCrc_congr
  intro k hk
  have h1 : (2 * k : ℕ) ≠ 1 := by omega
  have h2 : (2 * k : ℕ) ≠ 0 := by omega
  have h3 : (2 * k + 1 : ℕ) ≠ 1 := by omega
  have h4 : (2 * k + 1 : ℕ) ≠ 0 := by omega
  unfold FlashMirror.wordPat
  dsimp only
  rw [Function.update_noteq h1, Function.update_noteq h2,
      Function.update_noteq h3, Function.update_noteq h4]

/-- The bit pattern of the wrapping signed 16-bit running sum agrees with
the plain word sum modulo `2^16`. -/
theorem crc_fold_emod (m : FlashMirror) : ∀ (l : List Nat) (crc : Int) (s : Nat),
    crc % 65536 = (s : Int) % 65536 →
    (l.foldl (fun c k => i16wrapAdd c (i16ofBits (m.wordPat k))) crc) % 65536 =
      ((l.foldl (fun acc k => acc + m.wordPat k) s : Nat) : Int) % 65536 := by
  intro l
  induction l with
  | nil => exact fun crc s h => h
  | cons k t ih =>
      intro crc s h
      apply ih
      unfold i16wrapAdd i16ofBits
      push_cast
      omega

/-- The source checksum arithmetic coincides with the spec's closed form:
complement-as-unsigned of the word sum over offsets `1..1023`. -/
theorem calcCrc_eq_crcSpec (m : FlashMirror) : m.calcCrc = m.crcSpec := by
  have h := crc_fold_emod m (List.range' 1 (FLASH_MIRROR_SIZE / 2 - 1)) 0 0 (by norm_num)
  unfold FlashMirror.calcCrc FlashMirror.crcSpec u16ofI16 i16not
  omega

/-- `update_crc` stores `calc_crc` at bytes 0-1, which `calc_crc` never
reads, so an immediate `check_crc` succeeds. -/
theorem updateCrc_checkCrc (m : FlashMirror) : m.updateCrc.checkCrc = true := by
  have hlt : m.calcCrc < 65536 := by
    unfold FlashMirror.calcCrc u16ofI16
    omega
  have h1 : m.updateCrc.calcCrc = m.calcCrc := calcCrc_update01 m _ _
  have h2 : m.updateCrc.crc = m.calcCrc := by
    have h01 : (0 : ℕ) ≠ 1 := by omega
    unfold FlashMirror.updateCrc FlashMirror.crc u8
    dsimp only
    rw [Function.update_noteq h01, Function.update_same, Function.update_same]
    omega
  unfold FlashMirror.checkCrc
  rw [h1, h2]
  exact beq_self_eq_true _

/-- C6: for every 2048-byte mirror, `update_crc` followed immediately by
`check_crc` yields true; the computed checksum equals the bitwise
complement, reinterpreted as unsigned 16-bit, of the wrapping signed 16-bit
sum of the little-endian words at offsets 1 through the last word (word 0,
the checksum slot, excluded); and rewriting bytes 0-1 (word 0) never
changes the computed value. -/
theorem c6_flash_mirror_crc (m : FlashMirror) :
    m.updateCrc.checkCrc = true ∧
    m.calcCrc = m.crcSpec ∧
    ∀ b0 b1,
      (FlashMirror.mk (Function.update (Function.update m.buf 0 b0) 1 b1)).calcCrc =
        m.calcCrc :=
  ⟨updateCrc_checkCrc m, calcCrc_eq_crcSpec m, fun b0 b1 => calcCrc_update01 m b0 b1⟩

/-- C7, counterexample: `[0xff, 0x00, 0x00, 0x00]` is not the encoding of
any `CalibrationDeviceType` variant (the `None` encoding is
`[0xff, 0xff, 0x00, 0x00]`), yet decoding accepts it as `None` instead of
returning a parse error — the decoder matches `[0xff, _, _, _]`. -/
theorem c7_counterexample :
    (∀ v : CalibrationDeviceType,
      CalibrationDeviceType.toBytes v ≠ [0xff, 0x00, 0x00, 0x00]) ∧
    CalibrationDeviceType.tryFromBytes [0xff, 0x00, 0x00, 0x00] =
      Except.ok CalibrationDeviceType.none := by
  refine ⟨fun v => ?_, rfl⟩
  cases v with
  | analogStick t =>
      cases t <;> simp [CalibrationDeviceType.toBytes, AnalogStickCalibrationType.toByte]
  | motionSensor => simp [CalibrationDeviceType.toBytes]
  | triggerKey t =>
      cases t <;> simp [CalibrationDeviceType.toBytes, TriggerKeyCalibrationType.toBytes]
  | none => simp [CalibrationDeviceType.toBytes]

/-- A successful `Except.map` is a successful underlying decode. -/
theorem exists_ok_map {α β : Type} (f : α → β) (e : Except String α) :
    (∃ b, e.map f = Except.ok b) ↔ ∃ a, e = Except.ok a := by
  cases e <;> simp [Except.map]

/-- The bytes the analog-stick subtype decoder accepts. -/
theorem analog_ok_iff (b : Nat) :
    (∃ t, AnalogStickCalibrationType.tryFromByte b = Except.ok t) ↔
      (b = 0x01 ∨ b = 0x02 ∨ b = 0xff) := by
  unfold AnalogStickCalibrationType.tryFromByte
  split_ifs <;> simp_all

/-- The bytes the trigger-side decoder accepts. -/
theorem lr_ok_iff (b : Nat) :
    (∃ t, TriggerKeyLeftRight.tryFromByte b = Except.ok t) ↔
      (b = 0x00 ∨ b = 0x01 ∨ b = 0x02 ∨ b = 0x03) := by
  unfold TriggerKeyLeftRight.tryFromByte
  split_ifs <;> simp_all

/-- The byte pairs the trigger-key subtype decoder accepts (note the `None`
arm `[0xff, _]` ignores its second byte). -/
theorem tk_ok_iff (b0 b1 : Nat) :
    (∃ t, TriggerKeyCalibrationType.tryFromBytes b0 b1 = Except.ok t) ↔
      (b0 = 0xff ∨ ((b0 = 0x00 ∨ b0 = 0x01 ∨ b0 = 0x02 ∨ b0 = 0x03) ∧
        (b1 = 0x00 ∨ b1 = 0x01 ∨ b1 = 0x02 ∨ b1 = 0x03))) := by
  unfold TriggerKeyCalibrationType.tryFromBytes
  split_ifs <;> simp_all [exists_ok_map, lr_ok_iff]

/-- Spec-side, amended: the exact set of 4-byte patterns the device-type
decoder accepts.  It is wider than the strict encoding shapes: any pattern
with leading byte `0xff` decodes to `None` whatever the trailing bytes, and
`[0x03, 0xff, lr, 0x00]` decodes to a TriggerKey `None` for any `lr`. -/
def acceptedDeviceBytes (b0 b1 b2 b3 : Nat) : Prop :=
  (b0 = 0x01 ∧ (b1 = 0x01 ∨ b1 = 0x02 ∨ b1 = 0xff) ∧ b2 = 0x00 ∧ b3 = 0x00) ∨
  (b0 = 0x02 ∧ b1 = 0x00 ∧ b2 = 0x00 ∧ b3 = 0x00) ∨
  (b0 = 0x03 ∧ b3 = 0x00 ∧
    (b1 = 0xff ∨ ((b1 = 0x00 ∨ b1 = 0x01 ∨ b1 = 0x02 ∨ b1 = 0x03) ∧
      (b2 = 0x00 ∨ b2 = 0x01 ∨ b2 = 0x02 ∨ b2 = 0x03)))) ∨
  b0 = 0xff

/-- C7, amended: encode-then-decode is the identity for every
`CalibrationDeviceType` variant (including the terminal `None` sentinel and
every TriggerKey sub-variant), and decoding a 4-byte pattern succeeds
exactly on the patterns of `acceptedDeviceBytes`; every other pattern
yields a descriptive parse error (the decoder is total and never panics),
but the accepted set is wider than the strict encoding shapes, so not every
non-encoding pattern is rejected. -/
theorem c7_roundtrip_and_acceptance :
    (∀ v : CalibrationDeviceType,
      CalibrationDeviceType.tryFromBytes (CalibrationDeviceType.toBytes v) =
        Except.ok v) ∧
    ∀ b0 b1 b2 b3 : Nat,
      (∃ v, CalibrationDeviceType.tryFromBytes [b0, b1, b2, b3] = Except.ok v) ↔
        acceptedDeviceBytes b0 b1 b2 b3 := by
  constructor
  · intro v
    cases v with
    | analogStick t => cases t <;> rfl
    | motionSensor => rfl
    | triggerKey t =>
        cases t with
        | recordMaxSample lr => cases lr <;> rfl
        | recordRangeSample lr => cases lr <;> rfl
        | recordMinSample lr => cases lr <;> rfl
        | unknown lr => cases lr <;> rfl
        | none => rfl
    | none => rfl
  · intro b0 b1 b2 b3
    simp only [CalibrationDeviceType.tryFromBytes, CalibrationDeviceType.tryFromBytes4,
      acceptedDeviceBytes]
    split_ifs <;> simp_all [exists_ok_map, analog_ok_iff, tk_ok_iff]

/-- C8: frame validation depends only on the leading identifier byte —
`valid` holds iff byte 0 of the buffer equals the requested identifier's
byte, independent of the payload — and a feature-report exchange whose
response carries a different leading byte surfaces as `InvalidReport` from
`get_report`, while a matching one is accepted unchanged. -/
theorem c8_validate_leading_byte (id : ReportId) (payloadSize : Nat)
    (response : List Nat) :
    (Report.valid { id := id, data := response } = true ↔
      response.getD 0 0 = id.toByte) ∧
    getReport id payloadSize response =
      (if response.getD 0 0 = id.toByte then
        Except.ok { id := id, data := response }
       else Except.error DsError.invalidReport) := by
  constructor
  · simp [Report.valid]
  · unfold getReport
    simp only [Report.valid]
    split_ifs <;> simp_all

/-- Each exchange of the flash-mirror loop appends one factory command frame
to the trace and the selected word's two bytes to the buffer. -/
theorem readFlashMirror_fold (mem : Nat → Nat × Nat) (n : Nat) :
    ∀ acc : List (List Nat) × List Nat,
      (List.range n).foldl (readFlashMirrorStep mem) acc =
        (acc.1 ++ (List.range n).map
          (fun offset => (FactoryCommand.setIeepAddress (offset * 2)).toBytes),
         acc.2 ++ (List.range n).flatMap
          (fun offset =>
            let addr := ieepAddrOfCommand ((FactoryCommand.setIeepAddress (offset * 2)).toBytes)
            [(mem addr).1, (mem addr).2])) := by
  induction n with
  | zero => intro acc; simp
  | succ n ih =>
      intro acc
      rw [List.range_succ, List.foldl_append, ih]
      simp [readFlashMirrorStep]

/-- The big-endian address in a `SetIeepAddress` frame selects exactly the
word's byte address again (offsets here stay below `2^15`). -/
theorem ieepAddr_roundtrip (offset : Nat) (h : offset < 32768) :
    ieepAddrOfCommand ((FactoryCommand.setIeepAddress (offset * 2)).toBytes) =
      offset * 2 := by
  unfold ieepAddrOfCommand FactoryCommand.toBytes
  simp only [List.getD_cons_zero, List.getD_cons_succ]
  omega

/-- A bind of two-element lists doubles the length. -/
theorem length_bind_pairs {α β : Type} (l : List α) (g : α → List β)
    (h : ∀ a, (g a).length = 2) : (l.flatMap g).length = 2 * l.length := by
  induction l with
  | nil => simp
  | cons a t ih =>
      rw [List.flatMap_cons, List.length_append, h a, ih]
      simp
      omega

/-- C9: `read_flash_mirror` performs exactly 1024 two-byte reads in
increasing word-offset order: the factory-command trace is, in order, one
`[0xff, hi, lo]` frame per word offset `0..1024` with the byte address
`offset * 2` big-endian in the argument bytes, and the assembled buffer is
the 2048-byte concatenation, in address order, of the two IEEP bytes the
transport holds for each selected byte address. -/
theorem c9_read_flash_mirror (mem : Nat → Nat × Nat) :
    (readFlashMirror mem).1 =
      (List.range 1024).map
        (fun offset => [0xff, offset * 2 / 256, offset * 2 % 256]) ∧
    (readFlashMirror mem).2 =
      (List.range 1024).flatMap
        (fun offset => [(mem (offset * 2)).1, (mem (offset * 2)).2]) ∧
    (readFlashMirror mem).2.length = 2048 := by
  have hsize : FLASH_MIRROR_SIZE / 2 = 1024 := rfl
  have hrfm := readFlashMirror_fold mem 1024 ([], [])
  have h1 : (readFlashMirror mem).1 =
      (List.range 1024).map
        (fun offset => (FactoryCommand.setIeepAddress (offset * 2)).toBytes) := by
    unfold readFlashMirror
    rw [hsize, hrfm]
    simp
  have h2 : (readFlashMirror mem).2 =
      (List.range 1024).flatMap
        (fun offset =>
          let addr := ieepAddrOfCommand ((FactoryCommand.setIeepAddress (offset * 2)).toBytes)
          [(mem addr).1, (mem addr).2]) := by
    unfold readFlashMirror
    rw [hsize, hrfm]
    simp
  have h2' : (readFlashMirror mem).2 =
      (List.range 1024).flatMap
        (fun offset => [(mem (offset * 2)).1, (mem (offset * 2)).2]) := by
    rw [h2]
    apply List.flatMap_congr
    intro offset hmem
    have hlt : offset < 1024 := List.mem_range.mp hmem
    rw [ieepAddr_roundtrip offset (by omega)]
  refine ⟨?_, h2', ?_⟩
  · rw [h1]
    apply List.map_congr_left
    intro offset hmem
    have hlt : offset < 1024 := List.mem_range.mp hmem
    simp only [FactoryCommand.toBytes]
    have heq : offset * 2 % 65536 = offset * 2 := by omega
    rw [heq]
  · rw [h2']
    rw [length_bind_pairs (List.range 1024)
      (fun offset => [(mem (offset * 2)).1, (mem (offset * 2)).2]) (fun a => rfl)]
    simp

/-- Spec-side: the D-pad nibble mapping — the eight ordered compass codes
`0x0..0x7` and the released sentinel for every other nibble. -/
def dPadNibbleTable (n : Nat) : DPadState :=
  if n = 0x0 then DPadState.up
  else if n = 0x1 then DPadState.upRight
  else if n = 0x2 then DPadState.right
  else if n = 0x3 then DPadState.downRight
  else if n = 0x4 then DPadState.down
  else if n = 0x5 then DPadState.downLeft
  else if n = 0x6 then DPadState.left
  else if n = 0x7 then DPadState.upLeft
  else DPadState.released

/-- C10: the D-pad decoder reads only the low nibble of byte 5 (its result
is a function of `byte5 % 16`, so the face-button high nibble never affects
it); nibble `0x0` decodes to Up, each of the eight ordered compass codes
`0x0..0x7` decodes to its compass direction, and every nibble in
`0x8..0xf` decodes to Released. -/
theorem c10_dpad :
    (∀ d : Data, d.dPad = dPadNibbleTable (d.byte 5 % 16)) ∧
    (dPadNibbleTable 0x0 = DPadState.up ∧ dPadNibbleTable 0x1 = DPadState.upRight ∧
     dPadNibbleTable 0x2 = DPadState.right ∧ dPadNibbleTable 0x3 = DPadState.downRight ∧
     dPadNibbleTable 0x4 = DPadState.down ∧ dPadNibbleTable 0x5 = DPadState.downLeft ∧
     dPadNibbleTable 0x6 = DPadState.left ∧ dPadNibbleTable 0x7 = DPadState.upLeft) ∧
    ∀ n : Nat, 8 ≤ n % 16 → dPadNibbleTable (n % 16) = DPadState.released := by
  refine ⟨fun d => ?_, by decide, fun n hn => ?_⟩
  · unfold Data.dPad dPadNibbleTable
    have h : d.byte 5 * 16 % 256 = d.byte 5 % 16 * 16 := by omega
    rw [h]
    obtain ⟨m, hm, hlt⟩ : ∃ m, d.byte 5 % 16 = m ∧ m < 16 :=
      ⟨_, rfl, Nat.mod_lt _ (by norm_num)⟩
    rw [hm]
    interval_cases m <;> rfl
  · unfold dPadNibbleTable
    split_ifs <;> first | rfl | (exfalso; omega)

/-- C10, witness: byte 5 = `0xf7` (all face buttons pressed, nibble 7)
decodes to UpLeft, and nibble `0xa` is Released. -/
theorem c10_dpad_witness :
    (Data.mk ((List.replicate 64 0).set 5 0xf7)).dPad = DPadState.upLeft ∧
    dPadNibbleTable (0xa % 16) = DPadState.released := by
  constructor
  · rw [c10_dpad.1 (Data.mk ((List.replicate 64 0).set 5 0xf7))]
    rfl
  · exact c10_dpad.2.2 0xa (by decide)

end DS4
